import Mathlib

/-!
Shallow embedding of the pseudoterminal crate: the TerminalSize value type
(src/lib.rs), the POSIX PTY backend (src/pal/unix.rs), the Windows
pseudo-console backend (src/pal/windows.rs and src/sys/windows.rs), and the
blocking (src/sync.rs) and non-blocking (src/non_blocking.rs) terminal
facades.  Rust u16 fields are modelled as Nat; the one place the source
performs an `as i16` cast is made explicit (u16_as_i16).  Fallible code
returns Except; the possibility of a Rust panic is modelled explicitly
where `unwrap` appears in the source.
-/

namespace Pseudoterminal

/-- Terminal size value type, src/lib.rs: `struct TerminalSize { rows: u16, columns: u16 }`.
The doc comments in the source state that `rows` is the height and `columns`
the width of the terminal. -/
structure TerminalSize where
  rows : Nat
  columns : Nat
deriving DecidableEq

/-- Default size, `impl Default for TerminalSize` in src/lib.rs:
24 rows by 80 columns. -/
def TerminalSize.default : TerminalSize :=
  { rows := 24, columns := 80 }

/-- Wrapping cast of a Rust u16 value to i16, the semantics of `as i16`
applied to a u16 expression: bit-reinterpretation, so values at or above
2^15 become negative. -/
def u16_as_i16 (n : Nat) : Int :=
  if n % 65536 < 32768 then ((n % 65536 : Nat) : Int)
  else ((n % 65536 : Nat) : Int) - 65536

/-- Native Windows COORD structure as declared in src/pal/windows.rs
(`pub X: i16, pub Y: i16`).  In the Windows console API that consumes it
(CreatePseudoConsole / ResizePseudoConsole), X is the horizontal extent
(number of character columns, the width) and Y the vertical extent
(number of rows, the height). -/
structure COORD where
  X : Int
  Y : Int
deriving DecidableEq

/-- Conversion `impl From<TerminalSize> for COORD` in src/pal/windows.rs:
`COORD { X: size.rows as i16, Y: size.columns as i16 }`. -/
def COORD.fromTerminalSize (size : TerminalSize) : COORD :=
  { X := u16_as_i16 size.rows, Y := u16_as_i16 size.columns }

/-- The COORD built inside `TerminalHandle::set_term_size` in
src/sys/windows.rs: `COORD { X: new_size.rows as i16, Y: new_size.columns as i16 }`. -/
def TerminalHandle.set_term_size_coord (new_size : TerminalSize) : COORD :=
  { X := u16_as_i16 new_size.rows, Y := u16_as_i16 new_size.columns }

/-- Winsize structure (from the nix crate) as used by src/pal/unix.rs:
`ws_row`, `ws_col`, `ws_xpixel`, `ws_ypixel`, all u16. -/
structure Winsize where
  ws_row : Nat
  ws_col : Nat
  ws_xpixel : Nat
  ws_ypixel : Nat
deriving DecidableEq

/-- Conversion `impl From<TerminalSize> for Winsize` in src/pal/unix.rs:
`ws_row: value.rows, ws_col: value.columns, ws_xpixel: 0, ws_ypixel: 0`. -/
def Winsize.fromTerminalSize (value : TerminalSize) : Winsize :=
  { ws_row := value.rows, ws_col := value.columns, ws_xpixel := 0, ws_ypixel := 0 }

/-- POSIX `Terminal::set_term_size` in src/pal/unix.rs: converts the new
size to a Winsize and issues ioctl(master, TIOCSWINSZ, winsz).  The ioctl
is modelled as a store of the winsize into the kernel per-terminal state. -/
def unix_set_term_size (new_size : TerminalSize) (_kernelState : Winsize) : Winsize :=
  Winsize.fromTerminalSize new_size

/-- POSIX `Terminal::get_term_size` in src/pal/unix.rs: issues
ioctl(master, TIOCGWINSZ) and repacks the result as
`TerminalSize { columns: winsz.ws_col, rows: winsz.ws_row }`.  The ioctl is
modelled as a load from the same kernel per-terminal state. -/
def unix_get_term_size (kernelState : Winsize) : TerminalSize :=
  { columns := kernelState.ws_col, rows := kernelState.ws_row }

/-- The two endpoint slots of a Terminal: fields `terminal_in` and
`terminal_out` of `sync::Terminal` and `non_blocking::Terminal`, both
public `Option` fields. -/
structure TermIoState (I O : Type) where
  terminal_in : Option I
  terminal_out : Option O
deriving DecidableEq

/-- Blocking `Terminal::split` in src/sync.rs:
`let terminal_in = self.terminal_in.take()?;` then
`let terminal_out = self.terminal_out.take()?;` then `Some(pair)`.
Note that `Option::take` empties the slot before the question-mark operator
can abandon the call, so a state with a full input slot and an empty output
slot loses its input endpoint.  Returns the result together with the
post-state of the two slots. -/
def syncSplit {I O : Type} (t : TermIoState I O) :
    Option (I × O) × TermIoState I O :=
  match t.terminal_in with
  | none => (none, t)
  | some terminal_in =>
    match t.terminal_out with
    | none => (none, { terminal_in := none, terminal_out := none })
    | some terminal_out =>
        (some (terminal_in, terminal_out), { terminal_in := none, terminal_out := none })

/-- Marker for a Rust panic. -/
inductive Panicked where
  | panicked
deriving DecidableEq

/-- Rust `Option::unwrap`: the value on Some, a panic on None. -/
def unwrapModel {A : Type} : Option A → Except Panicked A
  | none => Except.error Panicked.panicked
  | some a => Except.ok a

/-- Non-blocking `Terminal::split` in src/non_blocking.rs: first checks
`self.terminal_in.is_none() || self.terminal_out.is_none()` and returns
None with the state untouched, otherwise takes and unwraps both slots.
The unwraps are modelled explicitly so that reachability of a panic is a
provable question. -/
def nbSplit {I O : Type} (t : TermIoState I O) :
    Except Panicked (Option (I × O) × TermIoState I O) := do
  if t.terminal_in.isNone || t.terminal_out.isNone then
    return (none, t)
  let terminal_in ← unwrapModel t.terminal_in
  let terminal_out ← unwrapModel t.terminal_out
  return (some (terminal_in, terminal_out), { terminal_in := none, terminal_out := none })

/-- The fallible steps of POSIX `Terminal::spawn_terminal` in
src/pal/unix.rs, in program order: posix_openpt, grantpt, unlockpt,
fcntl(F_GETFD), fcntl(F_SETFD), the two dup calls, open_slave
(ptsname + open), the two slave try_clone calls, set_term_size
(TIOCSWINSZ), and cmd.spawn(). -/
inductive UnixStep where
  | openpt
  | grantpt
  | unlockpt
  | getfd
  | setfd
  | dupInput
  | dupOutput
  | openSlave
  | cloneStdio
  | setSize
  | spawn
deriving DecidableEq

/-- Observable resource events of the POSIX spawn.  Release events are the
destructors that Rust runs when owned values go out of scope: PtyMaster
(the backend resource) closes its descriptor on drop, the two duplicated
File endpoints and the slave OwnedFd close theirs. -/
inductive UnixEvent where
  | allocMaster
  | dupInputFd
  | dupOutputFd
  | openSlaveFd
  | applySize (s : TerminalSize)
  | spawnChild
  | releaseMaster
  | releaseInputFd
  | releaseOutputFd
  | releaseSlaveFd
deriving DecidableEq

/-- POSIX `Terminal::spawn_terminal` (src/pal/unix.rs lines 30 to 92) as a
trace function.  The oracle failAt names the first step whose OS call
fails, or none when every step succeeds.  On an early return through the
question-mark operator, the locals still in scope drop in reverse
declaration order (declaration order: master, input, output, terminal
taking over the master, slave); values already moved into cmd (the slave
and its clones, after line 57) are owned by the caller's Command and do
not drop here.  On success the caller receives the terminal handle and a
TerminalIo whose input and output slots are both occupied. -/
def unixSpawnTerminal (initial_size : TerminalSize) (failAt : Option UnixStep) :
    Except UnixStep (TermIoState Unit Unit) × List UnixEvent :=
  if failAt = some UnixStep.openpt then
    (Except.error UnixStep.openpt, [])
  else if failAt = some UnixStep.grantpt then
    (Except.error UnixStep.grantpt,
      [UnixEvent.allocMaster, UnixEvent.releaseMaster])
  else if failAt = some UnixStep.unlockpt then
    (Except.error UnixStep.unlockpt,
      [UnixEvent.allocMaster, UnixEvent.releaseMaster])
  else if failAt = some UnixStep.getfd then
    (Except.error UnixStep.getfd,
      [UnixEvent.allocMaster, UnixEvent.releaseMaster])
  else if failAt = some UnixStep.setfd then
    (Except.error UnixStep.setfd,
      [UnixEvent.allocMaster, UnixEvent.releaseMaster])
  else if failAt = some UnixStep.dupInput then
    (Except.error UnixStep.dupInput,
      [UnixEvent.allocMaster, UnixEvent.releaseMaster])
  else if failAt = some UnixStep.dupOutput then
    (Except.error UnixStep.dupOutput,
      [UnixEvent.allocMaster, UnixEvent.dupInputFd,
       UnixEvent.releaseInputFd, UnixEvent.releaseMaster])
  else if failAt = some UnixStep.openSlave then
    (Except.error UnixStep.openSlave,
      [UnixEvent.allocMaster, UnixEvent.dupInputFd, UnixEvent.dupOutputFd,
       UnixEvent.releaseMaster, UnixEvent.releaseOutputFd, UnixEvent.releaseInputFd])
  else if failAt = some UnixStep.cloneStdio then
    (Except.error UnixStep.cloneStdio,
      [UnixEvent.allocMaster, UnixEvent.dupInputFd, UnixEvent.dupOutputFd,
       UnixEvent.openSlaveFd, UnixEvent.releaseSlaveFd, UnixEvent.releaseMaster,
       UnixEvent.releaseOutputFd, UnixEvent.releaseInputFd])
  else if failAt = some UnixStep.setSize then
    (Except.error UnixStep.setSize,
      [UnixEvent.allocMaster, UnixEvent.dupInputFd, UnixEvent.dupOutputFd,
       UnixEvent.openSlaveFd, UnixEvent.releaseMaster,
       UnixEvent.releaseOutputFd, UnixEvent.releaseInputFd])
  else if failAt = some UnixStep.spawn then
    (Except.error UnixStep.spawn,
      [UnixEvent.allocMaster, UnixEvent.dupInputFd, UnixEvent.dupOutputFd,
       UnixEvent.openSlaveFd, UnixEvent.applySize initial_size,
       UnixEvent.releaseMaster, UnixEvent.releaseOutputFd, UnixEvent.releaseInputFd])
  else
    (Except.ok { terminal_in := some (), terminal_out := some () },
      [UnixEvent.allocMaster, UnixEvent.dupInputFd, UnixEvent.dupOutputFd,
       UnixEvent.openSlaveFd, UnixEvent.applySize initial_size, UnixEvent.spawnChild])

/-- The fallible steps of Windows `Terminal::spawn_terminal` in
src/pal/windows.rs, in program order: the two io::pipe calls,
CreatePseudoConsole, ProcThreadAttributeList::build().finish(), and
cmd.spawn_with_attributes(). -/
inductive WinStep where
  | pipes
  | createConsole
  | buildAttrs
  | spawn
deriving DecidableEq

/-- Observable resource events of the Windows spawn.  createConsole
records the COORD handed to CreatePseudoConsole.  releaseConsole is
ClosePseudoConsole, which in the source runs only from the Drop impl of
the pal Terminal wrapper; until `Self { handle }` is constructed the
pseudo-console is held as a raw HPCON (an isize) with no destructor.
releasePipeEnds stands for the drops of the locally owned pipe-end values
(all four on failure paths; on success the console-side ends input_read
and output_write, the host ends having been moved into the returned
TerminalIo). -/
inductive WinEvent where
  | createPipes
  | createConsole (size : COORD)
  | spawnChild
  | releaseConsole
  | releasePipeEnds
deriving DecidableEq

/-- Windows `Terminal::spawn_terminal` (src/pal/windows.rs lines 42 to 74)
as a trace function over the same kind of failure oracle.  Note that the
pseudo-console handle is a bare isize local until the final success line
constructs `Self { handle }`, so the early returns after a successful
CreatePseudoConsole run no destructor for it. -/
def windowsSpawnTerminal (initial_size : TerminalSize) (failAt : Option WinStep) :
    Except WinStep (TermIoState Unit Unit) × List WinEvent :=
  if failAt = some WinStep.pipes then
    (Except.error WinStep.pipes, [])
  else if failAt = some WinStep.createConsole then
    (Except.error WinStep.createConsole,
      [WinEvent.createPipes, WinEvent.releasePipeEnds])
  else if failAt = some WinStep.buildAttrs then
    (Except.error WinStep.buildAttrs,
      [WinEvent.createPipes, WinEvent.createConsole (COORD.fromTerminalSize initial_size),
       WinEvent.releasePipeEnds])
  else if failAt = some WinStep.spawn then
    (Except.error WinStep.spawn,
      [WinEvent.createPipes, WinEvent.createConsole (COORD.fromTerminalSize initial_size),
       WinEvent.releasePipeEnds])
  else
    (Except.ok { terminal_in := some (), terminal_out := some () },
      [WinEvent.createPipes, WinEvent.createConsole (COORD.fromTerminalSize initial_size),
       WinEvent.spawnChild, WinEvent.releasePipeEnds])

/-- The fallible syscalls inside the pre_exec closure registered in
src/pal/unix.rs: close(master_fd), setsid(), ioctl(0, TIOCSCTTY, 1). -/
inductive ChildStep where
  | closeMaster
  | setsid
  | tiocsctty
deriving DecidableEq

/-- Events observable in the child between fork and exec. -/
inductive ChildEvent where
  | dupStdio
  | closeMaster
  | createSession
  | setControllingTerminal
  | execProgram
deriving DecidableEq

/-- The pre_exec closure of src/pal/unix.rs lines 58 to 78: close the
inherited master descriptor, then setsid, then ioctl TIOCSCTTY, each
guarded by an early error return. -/
def preExecHook (failAt : Option ChildStep) : Except ChildStep Unit × List ChildEvent :=
  if failAt = some ChildStep.closeMaster then
    (Except.error ChildStep.closeMaster, [])
  else if failAt = some ChildStep.setsid then
    (Except.error ChildStep.setsid, [ChildEvent.closeMaster])
  else if failAt = some ChildStep.tiocsctty then
    (Except.error ChildStep.tiocsctty,
      [ChildEvent.closeMaster, ChildEvent.createSession])
  else
    (Except.ok (),
      [ChildEvent.closeMaster, ChildEvent.createSession, ChildEvent.setControllingTerminal])

/-- Child-side trace of a spawn, following the documented contract of
std::os::unix::process::CommandExt::pre_exec: the closure runs in the
child after the stdio descriptors configured via cmd.stdin/stdout/stderr
have been duplicated into place and before the program image is exec'd;
exec happens only when the closure returned Ok. -/
def childTrace (failAt : Option ChildStep) : List ChildEvent :=
  ChildEvent.dupStdio ::
    ((preExecHook failAt).2 ++
      (match (preExecHook failAt).1 with
       | Except.ok _ => [ChildEvent.execProgram]
       | Except.error _ => []))

/-- The canonical child-side order required by the spec: duplicate stdio,
close the master, create a session, set the controlling terminal, exec. -/
def childCanonicalOrder : List ChildEvent :=
  [ChildEvent.dupStdio, ChildEvent.closeMaster, ChildEvent.createSession,
   ChildEvent.setControllingTerminal, ChildEvent.execProgram]

/-- Actions performed by closing a Terminal. -/
inductive CloseAction where
  | killChild
  | waitChild
  | releaseBackend
  | releaseIn
  | releaseOut
deriving DecidableEq

/-- Semantics of std::process::Child::kill as used by close: it errors
only when the child was already reaped by a wait call (which this crate
never performs before close); a child that merely exited receives the
signal successfully, since the unreaped process still exists. -/
def child_kill (_exited : Bool) (waited : Bool) : Except Unit Unit :=
  if waited then Except.error () else Except.ok ()

/-- Drops run when a Terminal value is consumed: struct fields drop in
declaration order, handle (the backend resource: PtyMaster close on
POSIX, ClosePseudoConsole via Drop on Windows), then child_proc (no
process action), then the occupied endpoint slots. -/
def terminalDropActions {I O : Type} (slots : TermIoState I O) : List CloseAction :=
  CloseAction.releaseBackend ::
    ((match slots.terminal_in with
      | some _ => [CloseAction.releaseIn]
      | none => []) ++
     (match slots.terminal_out with
      | some _ => [CloseAction.releaseOut]
      | none => []))

/-- Blocking `Terminal::close` in src/sync.rs lines 236 to 240:
`self.child_proc.kill()?; Ok(())`.  close takes self by value, so whether
kill succeeds or the question-mark operator propagates its error, self is
consumed and its fields drop. -/
def sync_close {I O : Type} (exited waited : Bool) (slots : TermIoState I O) :
    Except Unit Unit × List CloseAction :=
  match child_kill exited waited with
  | Except.error e => (Except.error e, CloseAction.killChild :: terminalDropActions slots)
  | Except.ok _ => (Except.ok (), CloseAction.killChild :: terminalDropActions slots)

/-- Non-blocking `Terminal::close` in src/non_blocking.rs lines 297 to
299: `self.child_proc.kill().await`, where tokio's kill is start_kill
followed by a wait that reaps the child; self drops afterwards exactly as
in the blocking variant. -/
def nb_close {I O : Type} (exited waited : Bool) (slots : TermIoState I O) :
    Except Unit Unit × List CloseAction :=
  match child_kill exited waited with
  | Except.error e => (Except.error e, CloseAction.killChild :: terminalDropActions slots)
  | Except.ok _ =>
      (Except.ok (), CloseAction.killChild :: CloseAction.waitChild :: terminalDropActions slots)

/-- Blocking facade `CommandExt::spawn_terminal_with_size` in src/sync.rs:
delegates to the platform spawn with the given size.  The platform spawn
and the command are abstracted as spawnImpl. -/
def sync_spawn_terminal_with_size {A : Type} (spawnImpl : TerminalSize → A)
    (size : TerminalSize) : A :=
  spawnImpl size

/-- Blocking facade `CommandExt::spawn_terminal` in src/sync.rs lines 73
to 81: builds the literal `TerminalSize { rows: 24, columns: 80 }` and
calls spawn_terminal_with_size. -/
def sync_spawn_terminal {A : Type} (spawnImpl : TerminalSize → A) : A :=
  sync_spawn_terminal_with_size spawnImpl { rows := 24, columns := 80 }

/-- Non-blocking facade `CommandExt::spawn_terminal_with_size` in
src/non_blocking.rs: delegates to the platform spawn (through spawn_with
and the OnceCell plumbing) with the given size. -/
def nb_spawn_terminal_with_size {A : Type} (spawnImpl : TerminalSize → A)
    (size : TerminalSize) : A :=
  spawnImpl size

/-- Non-blocking facade `CommandExt::spawn_terminal` in
src/non_blocking.rs lines 86 to 88: calls spawn_terminal_with_size with
`TerminalSize::default()`. -/
def nb_spawn_terminal {A : Type} (spawnImpl : TerminalSize → A) : A :=
  nb_spawn_terminal_with_size spawnImpl TerminalSize.default

/-- Tests whether a POSIX spawn event is the application of a size. -/
def UnixEvent.isApplySize : UnixEvent → Bool
  | UnixEvent.applySize _ => true
  | _ => false

/-- Tests whether a POSIX spawn event is the successful child spawn. -/
def UnixEvent.isSpawnChild : UnixEvent → Bool
  | UnixEvent.spawnChild => true
  | _ => false

/-- Tests whether a Windows spawn event hands a size to pseudo-console
creation. -/
def WinEvent.isCreateConsole : WinEvent → Bool
  | WinEvent.createConsole _ => true
  | _ => false

/-- Tests whether a Windows spawn event is the successful child spawn. -/
def WinEvent.isSpawnChild : WinEvent → Bool
  | WinEvent.spawnChild => true
  | _ => false

/-- Tests whether a Windows spawn event is the pseudo-console release. -/
def WinEvent.isReleaseConsole : WinEvent → Bool
  | WinEvent.releaseConsole => true
  | _ => false

/-- A POSIX spawn trace applies the size before spawning: if the child was
spawned, then some size application strictly precedes it and none follows
it. -/
def sizeAppliedBeforeSpawnUnix (l : List UnixEvent) : Bool :=
  !(l.any UnixEvent.isSpawnChild) ||
    ((l.takeWhile (fun e => !UnixEvent.isSpawnChild e)).any UnixEvent.isApplySize &&
     !((l.dropWhile (fun e => !UnixEvent.isSpawnChild e)).any UnixEvent.isApplySize))

/-- A Windows spawn trace hands the size to pseudo-console creation before
spawning: if the child was spawned, console creation strictly precedes it
and no console creation follows it. -/
def sizeAppliedBeforeSpawnWin (l : List WinEvent) : Bool :=
  !(l.any WinEvent.isSpawnChild) ||
    ((l.takeWhile (fun e => !WinEvent.isSpawnChild e)).any WinEvent.isCreateConsole &&
     !((l.dropWhile (fun e => !WinEvent.isSpawnChild e)).any WinEvent.isCreateConsole))

/-- C1: the claim states that the Windows conversion of TerminalSize to
the native COORD puts columns into X (the native width) and rows into Y
(the native height).  The code does the opposite: at rows = 24,
columns = 80, both the pal conversion and the sys set_term_size build
COORD with X = 24 and Y = 80, not the claimed X = 80, Y = 24. -/
theorem windows_coord_transposes_rows_columns :
    COORD.fromTerminalSize { rows := 24, columns := 80 } = { X := 24, Y := 80 } ∧
    TerminalHandle.set_term_size_coord { rows := 24, columns := 80 } = { X := 24, Y := 80 } ∧
    COORD.fromTerminalSize { rows := 24, columns := 80 } ≠ { X := 80, Y := 24 } := by
  refine ⟨by decide, by decide, by decide⟩

/-- C2: the claim states that when backend allocation succeeds and the
subsequent process spawn fails, the backend resource is released before
the error returns on both platforms.  On POSIX the master is indeed
released (exactly one releaseMaster in the failure trace), but on Windows
the spawn-failure trace contains no releaseConsole at all: the
pseudo-console created by CreatePseudoConsole is leaked. -/
theorem windows_spawn_failure_leaks_console :
    (windowsSpawnTerminal TerminalSize.default (some WinStep.spawn)).1
        = Except.error WinStep.spawn ∧
    ((windowsSpawnTerminal TerminalSize.default (some WinStep.spawn)).2.any
        WinEvent.isReleaseConsole) = false ∧
    (unixSpawnTerminal TerminalSize.default (some UnixStep.spawn)).1
        = Except.error UnixStep.spawn ∧
    ((unixSpawnTerminal TerminalSize.default (some UnixStep.spawn)).2.count
        UnixEvent.releaseMaster) = 1 := by
  exact ⟨rfl, rfl, rfl, rfl⟩

/-- C3: split returns the endpoint pair at most once, in both the blocking
and the non-blocking variant.  A freshly spawned terminal has both slots
occupied (the spawn result carries TerminalIo with input and output both
Some); the first split on such a state returns the pair and empties both
slots, and split on the emptied state returns None, an empty option, and
leaves the state empty, so every later call returns None as well. -/
theorem split_at_most_once :
    ∀ {I O : Type} (a : I) (b : O),
      syncSplit { terminal_in := some a, terminal_out := some b }
          = (some (a, b), { terminal_in := none, terminal_out := none }) ∧
      syncSplit ({ terminal_in := none, terminal_out := none } : TermIoState I O)
          = (none, { terminal_in := none, terminal_out := none }) ∧
      nbSplit { terminal_in := some a, terminal_out := some b }
          = Except.ok (some (a, b), { terminal_in := none, terminal_out := none }) ∧
      nbSplit ({ terminal_in := none, terminal_out := none } : TermIoState I O)
          = Except.ok (none, { terminal_in := none, terminal_out := none }) ∧
      (unixSpawnTerminal TerminalSize.default none).1
          = Except.ok { terminal_in := some (), terminal_out := some () } := by
  intro I O a b
  exact ⟨rfl, rfl, rfl, rfl, rfl⟩

/-- C4: on the POSIX backend, set_term_size stores the rows field into
ws_row and the columns field into ws_col, and get_term_size loads them
back into the same fields, so a set followed by a get returns the size
that was set, for every size and every prior kernel state. -/
theorem unix_set_get_term_size_roundtrip :
    ∀ (s : TerminalSize) (st : Winsize),
      unix_get_term_size (unix_set_term_size s st) = s := by
  intro s st
  rfl

/-- C5: every child-side execution of the pre-spawn hook is a prefix of
the canonical order dupStdio, closeMaster, createSession,
setControllingTerminal, execProgram; in that order close-master precedes
create-session, create-session strictly precedes
set-controlling-terminal, the hook follows the stdio duplication, and
exec comes last (and is reached exactly on the all-success trace). -/
theorem pre_exec_hook_order :
    (∀ failAt : Option ChildStep, ∃ k : Nat,
      childTrace failAt = childCanonicalOrder.take k) ∧
    childTrace none = childCanonicalOrder ∧
    List.indexOf ChildEvent.dupStdio childCanonicalOrder
        < List.indexOf ChildEvent.closeMaster childCanonicalOrder ∧
    List.indexOf ChildEvent.closeMaster childCanonicalOrder
        < List.indexOf ChildEvent.createSession childCanonicalOrder ∧
    List.indexOf ChildEvent.createSession childCanonicalOrder
        < List.indexOf ChildEvent.setControllingTerminal childCanonicalOrder ∧
    List.indexOf ChildEvent.setControllingTerminal childCanonicalOrder
        < List.indexOf ChildEvent.execProgram childCanonicalOrder := by
  refine ⟨?_, rfl, by decide, by decide, by decide, by decide⟩
  intro failAt
  rcases failAt with _ | step
  · exact ⟨5, rfl⟩
  · cases step
    · exact ⟨1, rfl⟩
    · exact ⟨2, rfl⟩
    · exact ⟨3, rfl⟩

/-- C6: for every initial size and every failure oracle, the spawn traces
of both backends apply the initial size before the child spawn and never
after it: on POSIX the TIOCSWINSZ application precedes cmd.spawn, on
Windows the size goes into CreatePseudoConsole before
spawn_with_attributes; the successful traces are listed explicitly,
showing the size-application step and its position. -/
theorem initial_size_applied_before_spawn :
    (∀ (size : TerminalSize) (failAt : Option UnixStep),
      sizeAppliedBeforeSpawnUnix (unixSpawnTerminal size failAt).2 = true) ∧
    (∀ (size : TerminalSize) (failAt : Option WinStep),
      sizeAppliedBeforeSpawnWin (windowsSpawnTerminal size failAt).2 = true) ∧
    (∀ size : TerminalSize,
      (unixSpawnTerminal size none).2
        = [UnixEvent.allocMaster, UnixEvent.dupInputFd, UnixEvent.dupOutputFd,
           UnixEvent.openSlaveFd, UnixEvent.applySize size, UnixEvent.spawnChild]) ∧
    (∀ size : TerminalSize,
      (windowsSpawnTerminal size none).2
        = [WinEvent.createPipes, WinEvent.createConsole (COORD.fromTerminalSize size),
           WinEvent.spawnChild, WinEvent.releasePipeEnds]) := by
  refine ⟨?_, ?_, fun size => rfl, fun size => rfl⟩
  · intro size failAt
    rcases failAt with _ | step
    · rfl
    · cases step <;> rfl
  · intro size failAt
    rcases failAt with _ | step
    · rfl
    · cases step <;> rfl

/-- C7: close terminates the child and releases the backend resource,
each exactly once, on the success path and on the error path, in both
variants; killing a child that has exited but was never waited on (the
only possibility in this crate, which never waits before close) succeeds;
and the actions of close do not depend on whether the endpoint slots were
already split out, the backend release happening exactly once in every
slot configuration. -/
theorem close_kills_and_releases_once :
    ∀ (exited waited : Bool) (slots : TermIoState Unit Unit),
      ((sync_close exited waited slots).2.count CloseAction.killChild = 1) ∧
      ((sync_close exited waited slots).2.count CloseAction.releaseBackend = 1) ∧
      ((nb_close exited waited slots).2.count CloseAction.killChild = 1) ∧
      ((nb_close exited waited slots).2.count CloseAction.releaseBackend = 1) ∧
      (sync_close exited false slots).1 = Except.ok () ∧
      (nb_close exited false slots).1 = Except.ok () ∧
      sync_close true waited slots = sync_close false waited slots := by
  intro exited waited slots
  obtain ⟨i, o⟩ := slots
  cases exited <;> cases waited <;> cases i <;> cases o <;>
    exact ⟨rfl, rfl, rfl, rfl, rfl, rfl, rfl⟩

/-- C8 counterexample: the claim states that the blocking and
non-blocking splits leave the slots in exactly the same post-state in
every configuration of the two option slots.  At the configuration with a
full input slot and an empty output slot the blocking split empties the
input slot while the non-blocking split leaves the state unchanged, so
the post-states differ. -/
theorem split_variants_post_state_differ :
    syncSplit ({ terminal_in := some 0, terminal_out := none } : TermIoState Nat Nat)
        = (none, { terminal_in := none, terminal_out := none }) ∧
    nbSplit ({ terminal_in := some 0, terminal_out := none } : TermIoState Nat Nat)
        = Except.ok (none, { terminal_in := some 0, terminal_out := none }) ∧
    ({ terminal_in := none, terminal_out := none } : TermIoState Nat Nat)
        ≠ { terminal_in := some 0, terminal_out := none } :=
  ⟨rfl, rfl, by decide⟩

/-- C8 amended: the two split variants never panic in the non-blocking
case modelled here, return a pair in exactly the same cases (the first
components agree for every configuration), and leave the slots in the
same post-state in every configuration except the one with a full input
slot and an empty output slot, where the blocking variant empties the
input slot while the non-blocking variant leaves the state unchanged. -/
theorem split_variants_equiv_amended :
    ∀ {I O : Type} (t : TermIoState I O),
      nbSplit t =
        Except.ok ((syncSplit t).1,
          if t.terminal_in.isSome && t.terminal_out.isNone then t
          else (syncSplit t).2) := by
  intro I O t
  obtain ⟨i, o⟩ := t
  cases i <;> cases o <;> rfl

/-- C9: the default TerminalSize is 24 rows by 80 columns, and both spawn
facades make spawn_terminal the delegation of spawn_terminal_with_size at
that default: the blocking facade builds the literal 24 by 80 size and
the non-blocking facade passes TerminalSize::default(), so for every
backend spawn implementation and command the two entry points agree. -/
theorem spawn_terminal_uses_default_size :
    TerminalSize.default = { rows := 24, columns := 80 } ∧
    (∀ {A : Type} (spawnImpl : TerminalSize → A),
      sync_spawn_terminal spawnImpl
        = sync_spawn_terminal_with_size spawnImpl TerminalSize.default) ∧
    (∀ {A : Type} (spawnImpl : TerminalSize → A),
      nb_spawn_terminal spawnImpl
        = nb_spawn_terminal_with_size spawnImpl TerminalSize.default) := by
  exact ⟨rfl, fun spawnImpl => rfl, fun spawnImpl => rfl⟩

/-- C10: the non-blocking split is panic-free and total on the terminal
state: for every configuration of the two option slots it returns an
ordinary value, never the panic marker, because the guard returns None
whenever either slot is empty and the two unwraps therefore only ever see
occupied slots. -/
theorem nb_split_panic_free :
    ∀ {I O : Type} (t : TermIoState I O), ∃ r, nbSplit t = Except.ok r := by
  intro I O t
  obtain ⟨i, o⟩ := t
  cases i <;> cases o <;> exact ⟨_, rfl⟩

end Pseudoterminal
